import Mathlib

/-!
Shallow embedding of `homework.py`: a small workout-statistics module with a
base training class, three activity subclasses (running, sports walking,
swimming), an info-message record with fixed-point formatting, and a
dispatcher `read_package` from a workout-type code and a flat argument list.

Python floats are modelled as exact rationals (`ℚ`); Python's float floor
division `//` is modelled as `⌊a / b⌋` cast back to `ℚ`; a raised exception is
modelled as `Except.error`, and Python's `None` value (returned by functions
that fall off the end, such as the base `get_spent_calories` whose body is
`pass`, or `read_package` on an unrecognised code) is modelled as
`Option.none` inside the `ok` branch.
-/

namespace Homework

/-- Exception classes that can be raised by the modelled code:
`ZeroDivisionError` from `/` or `//` with a zero divisor, and `TypeError`
from calling a constructor with the wrong number of positional arguments or
formatting `None` with a float format spec. -/
inductive PyErr where
  | zeroDivision
  | typeError
deriving DecidableEq, Repr

/-- The four classes of the training hierarchy, as a closed sum:
`Training` (the base class, instantiable in Python), `Running`,
`SportsWalking` (extra field `height`) and `Swimming` (extra fields
`length_pool`, `count_pool`).  All numeric fields are rationals, matching
Python's dynamic numbers (the driver passes `int`s where the annotations say
`int`, but the arithmetic is uniform). -/
inductive Training where
  | base (action duration weight : ℚ)
  | running (action duration weight : ℚ)
  | sportsWalking (action duration weight height : ℚ)
  | swimming (action duration weight length_pool count_pool : ℚ)
deriving DecidableEq, Repr

namespace Training

/-- `self.action` — number of actions performed. -/
def action : Training → ℚ
  | .base a _ _ => a
  | .running a _ _ => a
  | .sportsWalking a _ _ _ => a
  | .swimming a _ _ _ _ => a

/-- `self.duration` — training duration in hours. -/
def duration : Training → ℚ
  | .base _ d _ => d
  | .running _ d _ => d
  | .sportsWalking _ d _ _ => d
  | .swimming _ d _ _ _ => d

/-- `self.weight` — athlete weight in kg. -/
def weight : Training → ℚ
  | .base _ _ w => w
  | .running _ _ w => w
  | .sportsWalking _ _ w _ => w
  | .swimming _ _ w _ _ => w

/-- Class attribute `LEN_STEP`: `0.65` on the base class (inherited by
`Running` and `SportsWalking`), overridden to `1.38` on `Swimming`. -/
def LEN_STEP : Training → ℚ
  | .swimming _ _ _ _ _ => 1.38
  | _ => 0.65

/-- Class attribute `M_IN_KM = 1000`. -/
def M_IN_KM : ℚ := 1000

/-- Class attribute `ON_60_MINUTES = 60`. -/
def ON_60_MINUTES : ℚ := 60

/-- `type(self).__name__`, used as the training-type label of the summary. -/
def type_name : Training → String
  | .base _ _ _ => "Training"
  | .running _ _ _ => "Running"
  | .sportsWalking _ _ _ _ => "SportsWalking"
  | .swimming _ _ _ _ _ => "Swimming"

/-- `Training.get_distance`: `self.action * self.LEN_STEP / self.M_IN_KM`
(inherited unchanged by every subclass; `Swimming` only shadows `LEN_STEP`). -/
def get_distance (t : Training) : ℚ :=
  t.action * t.LEN_STEP / M_IN_KM

/-- `get_mean_speed`: the base implementation is
`self.get_distance() / self.duration` (raising `ZeroDivisionError` when the
duration is zero); `Swimming` overrides it with
`self.length_pool * self.count_pool / self.M_IN_KM / self.duration`. -/
def get_mean_speed (t : Training) : Except PyErr ℚ :=
  match t with
  | .swimming _ d _ lp cp =>
      if d = 0 then .error .zeroDivision
      else .ok (lp * cp / M_IN_KM / d)
  | _ =>
      if t.duration = 0 then .error .zeroDivision
      else .ok (t.get_distance / t.duration)

end Training

/-- `Running.coeff_calorie_1 = 18`. -/
def Running.coeff_calorie_1 : ℚ := 18

/-- `Running.coeff_calorie_2 = 20`. -/
def Running.coeff_calorie_2 : ℚ := 20

/-- `SportsWalking.coeff_calorie_1 = 0.035`. -/
def SportsWalking.coeff_calorie_1 : ℚ := 0.035

/-- `SportsWalking.coeff_calorie_2 = 0.029`. -/
def SportsWalking.coeff_calorie_2 : ℚ := 0.029

/-- `Swimming.coeff_calorie_1 = 1.1`. -/
def Swimming.coeff_calorie_1 : ℚ := 1.1

/-- `Swimming.coeff_calorie_2 = 2`. -/
def Swimming.coeff_calorie_2 : ℚ := 2

namespace Training

/-- `get_spent_calories`.  The base class body is `pass`, so it returns
Python `None` (`.ok none`).  Each subclass overrides it with its formula;
the mean speed is computed first (propagating its `ZeroDivisionError`), and
`SportsWalking` additionally floor-divides by `self.height`, raising
`ZeroDivisionError` when the height is zero. -/
def get_spent_calories (t : Training) : Except PyErr (Option ℚ) :=
  match t with
  | .base _ _ _ => .ok none
  | .running _ d w =>
      match t.get_mean_speed with
      | .error e => .error e
      | .ok v => .ok (some ((Running.coeff_calorie_1 * v
          - Running.coeff_calorie_2) * w / M_IN_KM * (d * ON_60_MINUTES)))
  | .sportsWalking _ d w h =>
      match t.get_mean_speed with
      | .error e => .error e
      | .ok v =>
          if h = 0 then .error .zeroDivision
          else .ok (some ((SportsWalking.coeff_calorie_1 * w
              + (⌊v ^ 2 / h⌋ : ℚ) * SportsWalking.coeff_calorie_2)
              * d * ON_60_MINUTES))
  | .swimming _ _ w _ _ =>
      match t.get_mean_speed with
      | .error e => .error e
      | .ok v => .ok (some ((v + Swimming.coeff_calorie_1)
          * Swimming.coeff_calorie_2 * w))

end Training

/-- `InfoMessage`: the summary record built by `show_training_info`.  The
first four constructor arguments are always numbers in the program, while
`calories` receives the result of `get_spent_calories`, which is Python
`None` for the base class — hence `Option ℚ`. -/
structure InfoMessage where
  training_type : String
  duration : ℚ
  distance : ℚ
  speed : ℚ
  calories : Option ℚ
deriving DecidableEq, Repr

/-- Round to the nearest integer, ties to the even integer — the rounding
used by Python's fixed-point float formatting. -/
def round_half_even (x : ℚ) : ℤ :=
  if x - ⌊x⌋ < 1 / 2 then ⌊x⌋
  else if x - ⌊x⌋ > 1 / 2 then ⌊x⌋ + 1
  else if ⌊x⌋ % 2 = 0 then ⌊x⌋ else ⌊x⌋ + 1

/-- The decimal digit character for `n < 10` (`'0'` + `n`). -/
def digit_char (n : ℕ) : Char := Char.ofNat (48 + n)

/-- Decimal digits of a natural number, most significant first, with
explicit fuel (enough fuel is supplied by `nat_repr`). -/
def nat_repr_aux : ℕ → ℕ → List Char
  | 0, _ => []
  | fuel + 1, n =>
      if n < 10 then [digit_char n]
      else nat_repr_aux fuel (n / 10) ++ [digit_char (n % 10)]

/-- Plain decimal rendering of a natural number. -/
def nat_repr (n : ℕ) : String := ⟨nat_repr_aux (n + 1) n⟩

/-- The three zero-padded digit characters of `c % 1000` — the fractional
part of a `%.3f` rendering. -/
def frac3 (c : ℕ) : List Char :=
  [digit_char (c / 100 % 10), digit_char (c / 10 % 10), digit_char (c % 10)]

/-- Model of Python's `f"{x:.3f}"`: round the value to a whole number of
thousandths (ties to even) and render sign, integer part, a point and
exactly three fractional digits (zero-padded). -/
def format_fixed3 (q : ℚ) : String :=
  let m : ℕ := (round_half_even (q * 1000)).natAbs
  (if q < 0 then "-" else "") ++ nat_repr (m / 1000) ++ "." ++ (⟨frac3 m⟩ : String)

/-- `InfoMessage.get_message`: the f-string of the source, with each numeric
field rendered through `:.3f`.  Formatting Python `None` (the base class's
calories) with `:.3f` raises `TypeError`. -/
def InfoMessage.get_message (m : InfoMessage) : Except PyErr String :=
  match m.calories with
  | none => .error .typeError
  | some c => .ok ("Тип тренировки: " ++ m.training_type ++ "; "
      ++ "Длительность: " ++ format_fixed3 m.duration ++ " ч.; "
      ++ "Дистанция: " ++ format_fixed3 m.distance ++ " км; "
      ++ "Ср. скорость: " ++ format_fixed3 m.speed ++ " км/ч; "
      ++ "Потрачено ккал: " ++ format_fixed3 c ++ ".")

namespace Training

/-- `Training.show_training_info`: builds the `InfoMessage` from the type
name, the duration and the three computed metrics, propagating any
exception raised while computing them (Python evaluates the constructor
arguments left to right: distance, then mean speed, then calories). -/
def show_training_info (t : Training) : Except PyErr InfoMessage :=
  match t.get_mean_speed with
  | .error e => .error e
  | .ok v =>
      match t.get_spent_calories with
      | .error e => .error e
      | .ok c => .ok ⟨t.type_name, t.duration, t.get_distance, v, c⟩

end Training

/-- `read_package`: maps `"SWM"`, `"RUN"`, `"WLK"` to the matching
constructor applied to the unpacked argument list (`TypeError` when the
arity does not match the constructor), and returns Python `None`
(`.ok none`) when the workout type is not in the dictionary — the function
body ends without a `return`. -/
def read_package (workout_type : String) (data : List ℚ) :
    Except PyErr (Option Training) :=
  if workout_type = "SWM" then
    match data with
    | [a, d, w, lp, cp] => .ok (some (.swimming a d w lp cp))
    | _ => .error .typeError
  else if workout_type = "RUN" then
    match data with
    | [a, d, w] => .ok (some (.running a d w))
    | _ => .error .typeError
  else if workout_type = "WLK" then
    match data with
    | [a, d, w, h] => .ok (some (.sportsWalking a d w h))
    | _ => .error .typeError
  else .ok none

/-- The property "this rendered number has exactly three digits after the
decimal point": the character data splits at a point into a point-free
head and exactly three digit characters. -/
def three_decimals (s : String) : Prop :=
  ∃ pre post : List Char, s.data = pre ++ '.' :: post ∧ post.length = 3 ∧
    (∀ c ∈ post, c.isDigit = true) ∧ (∀ c ∈ pre, c ≠ '.')

lemma digit_char_isDigit {n : ℕ} (h : n < 10) : (digit_char n).isDigit = true := by
  interval_cases n <;> decide

lemma digit_char_ne_dot {n : ℕ} (h : n < 10) : digit_char n ≠ '.' := by
  interval_cases n <;> decide

lemma nat_repr_aux_digits :
    ∀ fuel n : ℕ, ∀ c ∈ nat_repr_aux fuel n, c.isDigit = true := by
  intro fuel
  induction fuel with
  | zero => intro n c hc; simp [nat_repr_aux] at hc
  | succ f ih =>
      intro n c hc
      rw [nat_repr_aux] at hc
      split at hc
      · next h =>
          rw [List.mem_singleton] at hc
          subst hc
          exact digit_char_isDigit h
      · next h =>
          rw [List.mem_append, List.mem_singleton] at hc
          rcases hc with hc | hc
          · exact ih _ _ hc
          · subst hc
            exact digit_char_isDigit (Nat.mod_lt _ (by norm_num))

lemma isDigit_ne_dot {c : Char} (h : c.isDigit = true) : c ≠ '.' := by
  intro he
  subst he
  exact absurd h (by decide)

lemma format_fixed3_three_decimals (q : ℚ) : three_decimals (format_fixed3 q) := by
  unfold format_fixed3
  refine ⟨((if q < 0 then "-" else "") ++
      nat_repr ((round_half_even (q * 1000)).natAbs / 1000)).data,
    frac3 (round_half_even (q * 1000)).natAbs, ?_, rfl, ?_, ?_⟩
  · rw [String.data_append, String.data_append, List.append_assoc]
    rfl
  · intro c hc
    simp only [frac3, List.mem_cons, List.not_mem_nil, or_false] at hc
    rcases hc with rfl | rfl | rfl <;>
      exact digit_char_isDigit (Nat.mod_lt _ (by norm_num))
  · intro c hc
    rw [String.data_append, List.mem_append] at hc
    rcases hc with hc | hc
    · split at hc
      · rw [show ("-" : String).data = ['-'] from rfl, List.mem_singleton] at hc
        subst hc
        decide
      · simp [String.data] at hc
    · exact isDigit_ne_dot (nat_repr_aux_digits _ _ _ hc)

/-! ## Claim theorems -/

/-- C1 (counterexample): on the walking record with `action = 9000`,
`duration = 1`, `weight = 75`, `height = 1`, the code returns
`(0.035·75 + ⌊5.85²/1⌋·0.029)·1·60 = 216.66 = 10833/50`, while the
weight-scaled variant claimed by the spec evaluates to `4594.5 = 9189/2`,
a different number — the code does not multiply the second term by the
weight. -/
theorem walking_calories_not_weight_scaled :
    (Training.sportsWalking 9000 1 75 1).get_spent_calories
        = .ok (some (10833 / 50)) ∧
    (SportsWalking.coeff_calorie_1 * 75
        + (⌊((Training.sportsWalking 9000 1 75 1).get_distance / 1) ^ 2 / 1⌋ : ℚ)
          * SportsWalking.coeff_calorie_2 * 75) * 1 * Training.ON_60_MINUTES
        = 9189 / 2 ∧
    (10833 / 50 : ℚ) ≠ 9189 / 2 := by
  have hv : (Training.sportsWalking 9000 1 75 1).get_mean_speed = .ok (117 / 20) := by
    norm_num [Training.get_mean_speed, Training.get_distance, Training.action,
      Training.duration, Training.LEN_STEP, Training.M_IN_KM]
  have hfl : (⌊((117 : ℚ) / 20) ^ 2 / 1⌋ : ℤ) = 34 := by
    rw [Int.floor_eq_iff]
    norm_num
  have hfl2 : (⌊((Training.sportsWalking 9000 1 75 1).get_distance / 1) ^ 2 / 1⌋ : ℤ) = 34 := by
    have hv2 : (Training.sportsWalking 9000 1 75 1).get_distance / (1 : ℚ) = 117 / 20 := by
      norm_num [Training.get_distance, Training.action, Training.LEN_STEP, Training.M_IN_KM]
    rw [hv2, hfl]
  refine ⟨?_, ?_, by norm_num⟩
  · simp only [Training.get_spent_calories, hv]
    norm_num [hfl, SportsWalking.coeff_calorie_1, SportsWalking.coeff_calorie_2,
      Training.ON_60_MINUTES]
  · rw [hfl2]
    norm_num [SportsWalking.coeff_calorie_1, SportsWalking.coeff_calorie_2,
      Training.ON_60_MINUTES]

/-- C1 (amended): for every walking record with positive height and
duration, `get_spent_calories` returns
`(0.035·weight + ⌊speed²/height⌋·0.029) · duration · 60` — the floor of the
inner division is kept, but the second term is NOT multiplied by the
weight. -/
theorem walking_calories_formula (a d w h : ℚ) (hd : 0 < d) (hh : 0 < h) :
    (Training.sportsWalking a d w h).get_spent_calories =
      .ok (some ((SportsWalking.coeff_calorie_1 * w
        + (⌊((Training.sportsWalking a d w h).get_distance / d) ^ 2 / h⌋ : ℚ)
          * SportsWalking.coeff_calorie_2) * d * Training.ON_60_MINUTES)) := by
  have hd0 : d ≠ 0 := ne_of_gt hd
  have hh0 : h ≠ 0 := ne_of_gt hh
  simp [Training.get_spent_calories, Training.get_mean_speed, Training.duration, hd0, hh0]

/-- Witness for the amended C1 at the driver's walking sample
`(9000, 1, 75, 180)`. -/
theorem walking_calories_formula_witness :
    (0 : ℚ) < 1 ∧ (0 : ℚ) < 180 ∧
    (Training.sportsWalking 9000 1 75 180).get_spent_calories =
      .ok (some ((SportsWalking.coeff_calorie_1 * 75
        + (⌊((Training.sportsWalking 9000 1 75 180).get_distance / 1) ^ 2 / 180⌋ : ℚ)
          * SportsWalking.coeff_calorie_2) * 1 * Training.ON_60_MINUTES)) :=
  ⟨by norm_num, by norm_num,
    walking_calories_formula 9000 1 75 180 (by norm_num) (by norm_num)⟩

/-- C2 (counterexample): at the unrecognized code `"XYZ"` with arguments
`[1, 2, 3]`, `read_package` does not raise any error — it returns normally,
and the returned value is Python `None`: precisely the silent empty result
the claim rules out. -/
theorem read_package_unknown_returns_none :
    read_package "XYZ" [1, 2, 3] = .ok none ∧
    (read_package "XYZ" [1, 2, 3]).isOk = true :=
  ⟨rfl, rfl⟩

/-- C2 (amended): for every code outside `{"SWM", "RUN", "WLK"}` and every
argument list, `read_package` raises nothing and returns Python `None`
(the function body ends without reaching a `return`). -/
theorem read_package_unknown_code (code : String) (data : List ℚ)
    (h1 : code ≠ "SWM") (h2 : code ≠ "RUN") (h3 : code ≠ "WLK") :
    read_package code data = .ok none := by
  simp [read_package, h1, h2, h3]

/-- Witness for the amended C2 at code `"XYZ"` and arguments `[1, 2, 3]`. -/
theorem read_package_unknown_code_witness :
    ("XYZ" : String) ≠ "SWM" ∧ ("XYZ" : String) ≠ "RUN" ∧
    ("XYZ" : String) ≠ "WLK" ∧ read_package "XYZ" [1, 2, 3] = .ok none :=
  ⟨by decide, by decide, by decide,
    read_package_unknown_code "XYZ" [1, 2, 3] (by decide) (by decide) (by decide)⟩

/-- C3 (counterexample): calling `get_spent_calories` on a base `Training`
instance (here `Training(100, 1, 70)`) raises nothing: the body is `pass`,
so the call returns normally with Python `None` — no "unimplemented
operation" error is signaled. -/
theorem base_calories_returns_none :
    (Training.base 100 1 70).get_spent_calories = .ok none ∧
    ((Training.base 100 1 70).get_spent_calories).isOk = true :=
  ⟨rfl, rfl⟩

/-- C3 (amended): for every base `Training` record, `get_spent_calories`
returns Python `None` without raising any error: the base method body is
`pass`, not a `raise NotImplementedError` naming the type. -/
theorem base_calories_none (a d w : ℚ) :
    (Training.base a d w).get_spent_calories = .ok none :=
  rfl

/-- C4 (counterexample): the dispatcher round-trip
`read_package("RUN", [15000, 1, 75])` yields calories `2799/4 = 699.75`,
which is not approximately `2200.5` (it differs from it by more than
`1000`). -/
theorem run_roundtrip_not_2200 :
    read_package "RUN" [15000, 1, 75] = .ok (some (Training.running 15000 1 75)) ∧
    (Training.running 15000 1 75).show_training_info
        = .ok ⟨"Running", 1, 39 / 4, 39 / 4, some (2799 / 4)⟩ ∧
    (2799 / 4 : ℚ) ≠ 2200.5 ∧ (2200.5 : ℚ) - 2799 / 4 > 1000 := by
  refine ⟨rfl, ?_, by norm_num, by norm_num⟩
  norm_num [Training.show_training_info, Training.get_spent_calories,
    Training.get_mean_speed, Training.get_distance, Training.action, Training.duration,
    Training.weight, Training.type_name, Training.LEN_STEP, Training.M_IN_KM,
    Training.ON_60_MINUTES, Running.coeff_calorie_1, Running.coeff_calorie_2]

/-- C4 (amended): the dispatcher round-trip at `("RUN", [15000, 1, 75])`
produces a summary whose calories equal the direct evaluation of the §4.2
running formula at those values — and that common value is `699.75`, not
`≈ 2200.5`. -/
theorem run_roundtrip_formula :
    read_package "RUN" [15000, 1, 75] = .ok (some (Training.running 15000 1 75)) ∧
    (Training.running 15000 1 75).show_training_info
        = .ok ⟨"Running", 1, 39 / 4, 39 / 4,
            some ((Running.coeff_calorie_1 * (15000 * (0.65 : ℚ) / 1000 / 1)
              - Running.coeff_calorie_2) * 75 / Training.M_IN_KM * 1
              * Training.ON_60_MINUTES)⟩ ∧
    (Running.coeff_calorie_1 * (15000 * (0.65 : ℚ) / 1000 / 1)
        - Running.coeff_calorie_2) * 75 / Training.M_IN_KM * 1
        * Training.ON_60_MINUTES = 699.75 := by
  refine ⟨rfl, ?_, ?_⟩
  · norm_num [Training.show_training_info, Training.get_spent_calories,
      Training.get_mean_speed, Training.get_distance, Training.action, Training.duration,
      Training.weight, Training.type_name, Training.LEN_STEP, Training.M_IN_KM,
      Training.ON_60_MINUTES, Running.coeff_calorie_1, Running.coeff_calorie_2]
  · norm_num [Running.coeff_calorie_1, Running.coeff_calorie_2, Training.M_IN_KM,
      Training.ON_60_MINUTES]

/-- C5 (confirmed): for every running record with positive duration,
`get_spent_calories` returns
`(18 · meanSpeed − 20) · weight / 1000 · duration · 60`, where the mean
speed is the inherited step-based `get_distance / duration`. -/
theorem running_calories_formula (a d w : ℚ) (hd : 0 < d) :
    (Training.running a d w).get_spent_calories =
      .ok (some ((Running.coeff_calorie_1
        * ((Training.running a d w).get_distance / d) - Running.coeff_calorie_2)
        * w / Training.M_IN_KM * d * Training.ON_60_MINUTES)) := by
  have hd0 : d ≠ 0 := ne_of_gt hd
  simp [Training.get_spent_calories, Training.get_mean_speed, Training.duration, hd0]
  ring

/-- Witness for C5 at the driver's running sample `(15000, 1, 75)`. -/
theorem running_calories_formula_witness :
    (0 : ℚ) < 1 ∧
    (Training.running 15000 1 75).get_spent_calories =
      .ok (some ((Running.coeff_calorie_1
        * ((Training.running 15000 1 75).get_distance / 1) - Running.coeff_calorie_2)
        * 75 / Training.M_IN_KM * 1 * Training.ON_60_MINUTES)) :=
  ⟨by norm_num, running_calories_formula 15000 1 75 (by norm_num)⟩

/-- C6 (confirmed): for every swimming record with positive duration, the
overridden mean speed is `length_pool · count_pool / 1000 / duration`, and
both the mean speed and the calories are unchanged when only the `action`
field differs. -/
theorem swimming_ignores_action (a a2 d w lp cp : ℚ) (hd : 0 < d) :
    (Training.swimming a d w lp cp).get_mean_speed
        = .ok (lp * cp / Training.M_IN_KM / d) ∧
    (Training.swimming a d w lp cp).get_mean_speed
        = (Training.swimming a2 d w lp cp).get_mean_speed ∧
    (Training.swimming a d w lp cp).get_spent_calories
        = (Training.swimming a2 d w lp cp).get_spent_calories := by
  have hd0 : d ≠ 0 := ne_of_gt hd
  refine ⟨?_, ?_, ?_⟩ <;>
    simp [Training.get_mean_speed, Training.get_spent_calories, hd0]

/-- Witness for C6 at the driver's swimming sample `(720, 1, 80, 25, 40)`
against the same record with `action = 9999`. -/
theorem swimming_ignores_action_witness :
    (0 : ℚ) < 1 ∧
    (Training.swimming 720 1 80 25 40).get_mean_speed
        = .ok (25 * 40 / Training.M_IN_KM / 1) ∧
    (Training.swimming 720 1 80 25 40).get_mean_speed
        = (Training.swimming 9999 1 80 25 40).get_mean_speed ∧
    (Training.swimming 720 1 80 25 40).get_spent_calories
        = (Training.swimming 9999 1 80 25 40).get_spent_calories :=
  ⟨by norm_num, swimming_ignores_action 720 9999 1 80 25 40 (by norm_num)⟩

/-- C7 (confirmed): for every base training record, `get_mean_speed` raises
`ZeroDivisionError` exactly when the duration is zero, and otherwise
returns `get_distance / duration`. -/
theorem base_mean_speed_division (a d w : ℚ) :
    ((Training.base a d w).get_mean_speed = .error .zeroDivision ↔ d = 0) ∧
    (d ≠ 0 → (Training.base a d w).get_mean_speed
        = .ok ((Training.base a d w).get_distance / d)) := by
  constructor
  · by_cases hd : d = 0 <;> simp [Training.get_mean_speed, Training.duration, hd]
  · intro hd
    simp [Training.get_mean_speed, Training.duration, hd]

/-- Witness for C7: at `Training(100, 1, 70)` the duration is nonzero and
the speed is `get_distance / 1`; the zero-duration direction is exercised
through the iff at `d = 1 ≠ 0`. -/
theorem base_mean_speed_division_witness :
    (¬((Training.base 100 1 70).get_mean_speed = .error .zeroDivision) ↔ ¬((1 : ℚ) = 0)) ∧
    (Training.base 100 1 70).get_mean_speed
        = .ok ((Training.base 100 1 70).get_distance / 1) :=
  ⟨not_congr (base_mean_speed_division 100 1 70).1,
    (base_mean_speed_division 100 1 70).2 (by norm_num)⟩

/-- C8 (confirmed): for every summary whose calories field is a number, the
rendered message is the single line of the source's f-string with each of
the four numeric fields rendered through the `:.3f` model, and each such
rendering carries exactly three digit characters after its decimal point,
whatever the magnitude of the value. -/
theorem info_message_three_decimals (label : String) (dur dist sp cal : ℚ) :
    (InfoMessage.mk label dur dist sp (some cal)).get_message
      = .ok ("Тип тренировки: " ++ label ++ "; "
          ++ "Длительность: " ++ format_fixed3 dur ++ " ч.; "
          ++ "Дистанция: " ++ format_fixed3 dist ++ " км; "
          ++ "Ср. скорость: " ++ format_fixed3 sp ++ " км/ч; "
          ++ "Потрачено ккал: " ++ format_fixed3 cal ++ ".") ∧
    three_decimals (format_fixed3 dur) ∧ three_decimals (format_fixed3 dist) ∧
    three_decimals (format_fixed3 sp) ∧ three_decimals (format_fixed3 cal) :=
  ⟨rfl, format_fixed3_three_decimals dur, format_fixed3_three_decimals dist,
    format_fixed3_three_decimals sp, format_fixed3_three_decimals cal⟩

/-- C9 (confirmed): for every swimming record with positive duration, the
summary's distance comes from the inherited `get_distance` with the
overridden stroke length `1.38` — `action · 1.38 / 1000` — while its speed
is pool-lap based; and at the driver's swimming sample `(720, 1, 80, 25, 40)`
the summary has speed `1`, duration `1` and distance `621/625 = 0.9936`, so
`speed · duration ≠ distance` there. -/
theorem swimming_summary_distance (a d w lp cp : ℚ) (hd : 0 < d) :
    (∃ info : InfoMessage,
      (Training.swimming a d w lp cp).show_training_info = .ok info ∧
      info.distance = a * (1.38 : ℚ) / Training.M_IN_KM ∧
      info.speed = lp * cp / Training.M_IN_KM / d ∧
      info.duration = d) ∧
    ((Training.swimming 720 1 80 25 40).show_training_info
        = .ok ⟨"Swimming", 1, 621 / 625, 1, some 336⟩ ∧
      (1 : ℚ) * 1 ≠ 621 / 625) := by
  have hd0 : d ≠ 0 := ne_of_gt hd
  constructor
  · refine ⟨⟨"Swimming", d, a * (1.38 : ℚ) / Training.M_IN_KM,
      lp * cp / Training.M_IN_KM / d,
      some ((lp * cp / Training.M_IN_KM / d + Swimming.coeff_calorie_1)
        * Swimming.coeff_calorie_2 * w)⟩, ?_, rfl, rfl, rfl⟩
    simp [Training.show_training_info, Training.get_mean_speed,
      Training.get_spent_calories, Training.get_distance, Training.action,
      Training.duration, Training.type_name, Training.LEN_STEP, hd0]
  · constructor
    · norm_num [Training.show_training_info, Training.get_mean_speed,
        Training.get_spent_calories, Training.get_distance, Training.action,
        Training.duration, Training.weight, Training.type_name, Training.LEN_STEP,
        Training.M_IN_KM, Swimming.coeff_calorie_1, Swimming.coeff_calorie_2]
    · norm_num

/-- Witness for C9 at the driver's swimming sample `(720, 1, 80, 25, 40)`. -/
theorem swimming_summary_distance_witness :
    ((0 : ℚ) < 1) ∧
    ((∃ info : InfoMessage,
      (Training.swimming 720 1 80 25 40).show_training_info = .ok info ∧
      info.distance = 720 * (1.38 : ℚ) / Training.M_IN_KM ∧
      info.speed = 25 * 40 / Training.M_IN_KM / 1 ∧
      info.duration = 1) ∧
    ((Training.swimming 720 1 80 25 40).show_training_info
        = .ok ⟨"Swimming", 1, 621 / 625, 1, some 336⟩ ∧
      (1 : ℚ) * 1 ≠ 621 / 625)) :=
  ⟨by norm_num, swimming_summary_distance 720 1 80 25 40 (by norm_num)⟩

/-- C10 (confirmed): for every base, running and walking record with
nonzero duration, the computed mean speed times the duration is exactly the
computed distance. -/
theorem speed_times_duration_eq_distance (a d w h : ℚ) (hd : d ≠ 0) :
    (∃ v, (Training.base a d w).get_mean_speed = .ok v ∧
      v * d = (Training.base a d w).get_distance) ∧
    (∃ v, (Training.running a d w).get_mean_speed = .ok v ∧
      v * d = (Training.running a d w).get_distance) ∧
    (∃ v, (Training.sportsWalking a d w h).get_mean_speed = .ok v ∧
      v * d = (Training.sportsWalking a d w h).get_distance) := by
  refine ⟨⟨(Training.base a d w).get_distance / d, ?_, ?_⟩,
    ⟨(Training.running a d w).get_distance / d, ?_, ?_⟩,
    ⟨(Training.sportsWalking a d w h).get_distance / d, ?_, ?_⟩⟩ <;>
    simp [Training.get_mean_speed, Training.duration, hd]

/-- Witness for C10 at `(9000, 1, 75)` (and height `180` for walking). -/
theorem speed_times_duration_eq_distance_witness :
    ((1 : ℚ) ≠ 0) ∧
    ((∃ v, (Training.base 9000 1 75).get_mean_speed = .ok v ∧
      v * 1 = (Training.base 9000 1 75).get_distance) ∧
    (∃ v, (Training.running 9000 1 75).get_mean_speed = .ok v ∧
      v * 1 = (Training.running 9000 1 75).get_distance) ∧
    (∃ v, (Training.sportsWalking 9000 1 75 180).get_mean_speed = .ok v ∧
      v * 1 = (Training.sportsWalking 9000 1 75 180).get_distance)) :=
  ⟨by norm_num, speed_times_duration_eq_distance 9000 1 75 180 (by norm_num)⟩

end Homework
